import Mathlib

/-!
Verification of the `svg` library: a shallow embedding in Lean 4 of the
modules `src/svg/path.py`, `src/svg/svg.py` and `src/svg/transform.py`,
together with theorems settling the specification's claims about them.

Conventions of the embedding:
* Python numbers are modelled as exact rationals (`ℚ`) where the code only
  performs field arithmetic and formatting, and as real numbers (`ℝ`) where
  the code calls `math.sin`/`math.cos`.
* Python's `'%f' % x` formatting (six decimal places) is modelled by `fmtF`;
  `'%d' % n` on integers is `toString`.
* `xml.etree` elements are modelled as a node name together with an ordered
  attribute list; `Element.set` replaces an existing entry or appends.
-/

namespace Svg

/-- Modelled from the spec: the `Point` class lives in `svg/point.py`, which is
not part of the provided sources.  Per §3/§4.1 of the spec it is a 2D
coordinate value with componentwise `add`, `subtract`, `scale(factor)`,
`format()` returning the string "x,y" by natural numeric-to-string
conversion, and a `cartesian_coordinates()` pair accessor.  The coordinate
type is a parameter so that the same structure serves the exact-arithmetic
(`ℚ`, `ℤ`) and the trigonometric (`ℝ`) parts of the code. -/
structure Point (α : Type) where
  x : α
  y : α
deriving DecidableEq, Repr

namespace Point

variable {α : Type}

/-- Modelled from the spec: componentwise sum (`Point.add`, Python `+`). -/
def add [Add α] (p q : Point α) : Point α := ⟨p.x + q.x, p.y + q.y⟩

/-- Modelled from the spec: componentwise difference (`Point.subtract`, Python `-`). -/
def sub [Sub α] (p q : Point α) : Point α := ⟨p.x - q.x, p.y - q.y⟩

/-- Modelled from the spec: componentwise multiplication by a scalar (`Point.scale`). -/
def scale [Mul α] (p : Point α) (factor : α) : Point α := ⟨p.x * factor, p.y * factor⟩

instance [Add α] : Add (Point α) := ⟨add⟩
instance [Sub α] : Sub (Point α) := ⟨sub⟩

/-- Modelled from the spec: `format()` returns "x,y" using natural
numeric-to-string conversion (an integer-valued coordinate prints with no
decimal point, as Python's `str` does on `int`). -/
def format [ToString α] (p : Point α) : String :=
  toString p.x ++ "," ++ toString p.y

/-- Modelled from the spec: `cartesian_coordinates()` returns the pair (x, y). -/
def cartesian_coordinates (p : Point α) : α × α := (p.x, p.y)

@[simp] theorem add_x [Add α] (p q : Point α) : (p + q).x = p.x + q.x := rfl
@[simp] theorem add_y [Add α] (p q : Point α) : (p + q).y = p.y + q.y := rfl
@[simp] theorem sub_x [Sub α] (p q : Point α) : (p - q).x = p.x - q.x := rfl
@[simp] theorem sub_y [Sub α] (p q : Point α) : (p - q).y = p.y - q.y := rfl
@[simp] theorem scale_x [Mul α] (p : Point α) (f : α) : (p.scale f).x = p.x * f := rfl
@[simp] theorem scale_y [Mul α] (p : Point α) (f : α) : (p.scale f).y = p.y * f := rfl

end Point

/-- Left-pad a numeral string with zeros to six characters; used by `fmtF`
for the fractional part. -/
def pad6 (s : String) : String :=
  String.mk (List.replicate (6 - s.length) '0') ++ s

/-- Python's `'%f' % q` formatting: six digits after the decimal point.  The
scaled value `⌊q·10⁶ + 1/2⌋` is computed directly on the numerator and
denominator so the kernel can evaluate it.  For rationals exactly
representable with six decimals (every value the claims evaluate) this is
exact; otherwise it rounds, as CPython does on such inputs. -/
def fmtF (q : ℚ) : String :=
  let n : ℤ := (q.num * 2000000 + (q.den : ℤ)).fdiv (2 * (q.den : ℤ))
  let m : ℕ := n.natAbs
  (if n < 0 then "-" else "") ++ toString (m / 1000000) ++ "." ++ pad6 (toString (m % 1000000))

/-- An `xml.etree` element: a node name with an ordered list of
string-valued attributes.  (Text content and children are not needed by any
claim and are omitted.) -/
structure Element where
  name : String
  attrs : List (String × String)
deriving DecidableEq, Repr

/-- Attribute update on the ordered list: replace the first entry with the
given key, or append when absent — the behaviour of `ElementTree.set` on the
underlying attribute dictionary. -/
def setAttr : List (String × String) → String → String → List (String × String)
  | [], k, v => [(k, v)]
  | (k', v') :: rest, k, v =>
      if k' = k then (k, v) :: rest else (k', v') :: setAttr rest k v

/-- Attribute lookup on the ordered list. -/
def getAttr : List (String × String) → String → Option String
  | [], _ => none
  | (k', v') :: rest, k => if k' = k then some v' else getAttr rest k

/-- `element.set(key, value)`. -/
def Element.set (e : Element) (k v : String) : Element :=
  ⟨e.name, setAttr e.attrs k v⟩

/-- `element.get(key)`. -/
def Element.get (e : Element) (k : String) : Option String :=
  getAttr e.attrs k

theorem getAttr_setAttr_same (l : List (String × String)) (k v : String) :
    getAttr (setAttr l k v) k = some v := by
  induction l with
  | nil => simp [setAttr, getAttr]
  | cons hd tl ih =>
      by_cases h : hd.1 = k <;> simp [setAttr, getAttr, h, ih]

theorem getAttr_setAttr_of_ne (l : List (String × String)) (k k' v : String)
    (h : k' ≠ k) : getAttr (setAttr l k' v) k = getAttr l k := by
  induction l with
  | nil => simp [setAttr, getAttr, h]
  | cons hd tl ih =>
      by_cases h2 : hd.1 = k' <;> by_cases h3 : hd.1 = k <;>
        simp_all [setAttr, getAttr]

/-! ## transform.py -/

/-- The `Transform` hierarchy of `transform.py`: `Translation` holds an offset
point, `Rotation` holds an angle in degrees and an origin point.  (The
abstract `as_matrix` member is a documented no-op in the source and is
omitted.) -/
inductive Transform (α : Type) where
  | translation (vector : Point α)
  | rotation (angle : α) (origin : Point α)
deriving DecidableEq

/-- `Translation.text` is `'translate(%f,%f)' % vector.cartesian_coordinates()`;
`Rotation.text` is `'rotate(%f,%f,%f)' % (angle, origin.x, origin.y)`. -/
def Transform.text : Transform ℚ → String
  | .translation v =>
      "translate(" ++ fmtF v.cartesian_coordinates.1 ++ "," ++ fmtF v.cartesian_coordinates.2 ++ ")"
  | .rotation angle origin =>
      "rotate(" ++ fmtF angle ++ "," ++ fmtF origin.x ++ "," ++ fmtF origin.y ++ ")"

/-- Python's `math.radians`. -/
noncomputable def radians (x : ℝ) : ℝ := x * (Real.pi / 180)

/-- `Translation.transform` returns `point + vector`.  `Rotation.transform`
computes `s = sin(radians(-angle))`, `c = cos(radians(-angle))` and returns
`Point(c*p.x + s*p.y, c*p.y - s*p.x)`; the stored origin is not used. -/
noncomputable def Transform.transform : Transform ℝ → Point ℝ → Point ℝ
  | .translation v, p => p + v
  | .rotation angle _, p =>
      let s := Real.sin (radians (-angle))
      let c := Real.cos (radians (-angle))
      ⟨c * p.x + s * p.y, c * p.y - s * p.x⟩

/-! ## svg.py: GroupedDrawable -/

/-- `GroupedDrawable` of `svg.py`: an ordered transformation list and an
opacity percentage.  (The child list only matters for `element()`, which no
claim exercises; it is omitted.) -/
structure GroupedDrawable (α : Type) where
  transformations : List (Transform α)
  opacity : ℤ

/-- `GroupedDrawable.__init__(opacity=100)`: empty transformation list. -/
def GroupedDrawable.init (α : Type) (opacity : ℤ) : GroupedDrawable α :=
  ⟨[], opacity⟩

/-- `transformation()`: the space-joined `text()` of all transformations. -/
def GroupedDrawable.transformation (g : GroupedDrawable ℚ) : String :=
  String.intercalate " " (g.transformations.map Transform.text)

/-- `container()`: a "g" element; sets `transform` when the transformation
list is non-empty and `opacity` when the opacity differs from 100. -/
def GroupedDrawable.container (g : GroupedDrawable ℚ) : Element :=
  let group : Element := ⟨"g", []⟩
  let group := if g.transformations.length > 0
    then group.set "transform" g.transformation else group
  if g.opacity ≠ 100 then group.set "opacity" (toString g.opacity) else group

/-- `rotate(theta, origin=Point(0,0))` appends a `Rotation` and returns self;
the Python default origin `Point(0,0)` is passed explicitly here. -/
def GroupedDrawable.rotate {α : Type} (g : GroupedDrawable α) (theta : α)
    (origin : Point α) : GroupedDrawable α :=
  { g with transformations := g.transformations ++ [Transform.rotation theta origin] }

/-- `move_to(point)` appends a `Translation` and returns self. -/
def GroupedDrawable.move_to {α : Type} (g : GroupedDrawable α) (point : Point α) :
    GroupedDrawable α :=
  { g with transformations := g.transformations ++ [Transform.translation point] }

/-- The loop body of `location_of`: `for t in transformations: p = t.transform(p)`. -/
noncomputable def applyTransforms : List (Transform ℝ) → Point ℝ → Point ℝ
  | [], p => p
  | t :: ts, p => applyTransforms ts (t.transform p)

/-- `location_of(point)`: apply every transformation in list order to a copy
of the input point.  (Lean values are immutable, so working "on a copy" is
implicit: the argument is never modified.) -/
noncomputable def GroupedDrawable.location_of (g : GroupedDrawable ℝ) (point : Point ℝ) :
    Point ℝ :=
  applyTransforms g.transformations point

/-! ## path.py -/

/-- The `PathSegment` variants of `path.py`: `RelativeVector(x, y)` stores
`Point(x, y)`; `Arc` stores its seven parameters (the `_spec` tuple), with
the two flags as integers since `'%d'` formats them. -/
inductive PathSegment where
  | relativeVector (point : Point ℚ)
  | arc (x y xrot : ℚ) (large_arc sweep : ℤ) (endx endy : ℚ)
deriving DecidableEq

/-- `RelativeVector.specification` is `'l %s ' % point.format()`;
`Arc.specification` is `'a %f %f, %f, %d, %d, %f, %f' % spec`. -/
def PathSegment.specification : PathSegment → String
  | .relativeVector p => "l " ++ p.format ++ " "
  | .arc x y xrot large_arc sweep endx endy =>
      "a " ++ fmtF x ++ " " ++ fmtF y ++ ", " ++ fmtF xrot ++ ", " ++
        toString large_arc ++ ", " ++ toString sweep ++ ", " ++
        fmtF endx ++ ", " ++ fmtF endy

/-- The helper `vector(x, y)` of `path.py`. -/
def vector (x y : ℚ) : PathSegment := .relativeVector ⟨x, y⟩

/-- The helper `arc(...)` of `path.py`. -/
def arc (x y xrot : ℚ) (large_arc sweep : ℤ) (endx endy : ℚ) : PathSegment :=
  .arc x y xrot large_arc sweep endx endy

/-- `Path` of `path.py`: anchor (`top_left`, from `SimpleItem`), segment
sequence, `closed` flag and the extra-attribute mapping. -/
structure Path where
  top_left : Point ℚ
  segments : List PathSegment
  closed : Bool
  attributes : List (String × String)
deriving DecidableEq

/-- `Path.__init__(start, *segments, **attributes)`: stores the anchor, the
segments and the attributes, and sets `closed = True` unconditionally (the
constructor has no parameter for it). -/
def Path.init (start : Point ℚ) (segments : List PathSegment)
    (attributes : List (String × String)) : Path :=
  ⟨start, segments, true, attributes⟩

/-- `Path.element()`: an Element named "path" carrying the extra attributes,
whose `d` attribute is `'M %s ' % top_left.format()` followed by the
space-joined segment specifications, then `' Z'` when closed; when the extra
attributes contain a "width" key, `stroke-width` is set to its value. -/
def Path.element (p : Path) : Element :=
  let e : Element := ⟨"path", p.attributes⟩
  let d := "M " ++ p.top_left.format ++ " " ++
    String.intercalate " " (p.segments.map PathSegment.specification) ++
    (if p.closed then " Z" else "")
  let e := e.set "d" d
  match getAttr p.attributes "width" with
  | some w => e.set "stroke-width" w
  | none => e

/-! ## svg.py: Rectangle, Line, Text -/

/-- `Rectangle` of `svg.py`.  (The `element()` serialization is not exercised
by any claim; the geometric and style state is kept.) -/
structure Rectangle where
  top_left : Point ℚ
  width : ℚ
  height : ℚ
  stroke_width : ℤ
  stroke : String
  stroke_dasharray : Option String
  rounded : Bool
  attributes : List (String × String)

/-- `SimpleItem.move_to(point)` replaces the anchor (here for Rectangle). -/
def Rectangle.move_to (r : Rectangle) (point : Point ℚ) : Rectangle :=
  { r with top_left := point }

/-- `set_center(x, y)`: `move_to(Point(x - 0.5*width, y - 0.5*height))`. -/
def Rectangle.set_center (r : Rectangle) (x y : ℚ) : Rectangle :=
  r.move_to ⟨x - (1/2) * r.width, y - (1/2) * r.height⟩

/-- `center()`: `top_left + Point(width, height).scale(0.5)`. -/
def Rectangle.center (r : Rectangle) : Point ℚ :=
  r.top_left + (Point.mk r.width r.height).scale (1/2)

/-- `Line` of `svg.py`: anchor (`top_left`), displacement `vector`
(`end - start` at construction), and style state. -/
structure Line where
  top_left : Point ℚ
  vector : Point ℚ
  color : String
  stroke_width : ℤ
  linecap : String
  stroke_dasharray : Option String
  attributes : List (String × String)
deriving DecidableEq

/-- `Line.__init__(start, end, ...)`: the anchor is `start` and the stored
vector is `end - start`.  (`e` is the Python parameter `end`.) -/
def Line.init (start e : Point ℚ) (color : String) (stroke_width : ℤ)
    (linecap : String) (stroke_dasharray : Option String)
    (attributes : List (String × String)) : Line :=
  ⟨start, e - start, color, stroke_width, linecap, stroke_dasharray, attributes⟩

/-- `SimpleItem.move_to(point)` replaces the anchor (here for Line). -/
def Line.move_to (l : Line) (point : Point ℚ) : Line :=
  { l with top_left := point }

/-- `SimpleItem.move_by(point)` adds the point to the anchor (here for Line). -/
def Line.move_by (l : Line) (point : Point ℚ) : Line :=
  { l with top_left := l.top_left + point }

/-- `Line.set_end(point)`: the vector becomes `point - top_left`. -/
def Line.set_end (l : Line) (point : Point ℚ) : Line :=
  { l with vector := point - l.top_left }

/-- `Line.end()`: `top_left + vector`.  (`end` is a Lean keyword, hence the
name `endPoint`.) -/
def Line.endPoint (l : Line) : Point ℚ :=
  l.top_left + l.vector

/-- `Text` of `svg.py`.  The `'%d'` formats in `element()` make integer
coordinates and angle the faithful exact model, so the coordinate type is
`ℤ`.  The angle is 0 after construction. -/
structure Text where
  text : String
  top_left : Point ℤ
  color : String
  anchor : String
  size : ℤ
  font_weight : String
  font_family : Option String
  attributes : List (String × String)
  angle : ℤ

/-- `Text.rotate(angle)` stores the angle and returns self. -/
def Text.rotate (t : Text) (angle : ℤ) : Text :=
  { t with angle := angle }

/-- `Text.element()`: a "text" element with `x`, `y` and a style string;
when the stored angle is non-zero it additionally sets
`transform = 'rotate(%d,%d,%d)' % (angle, top_left.x, top_left.y)`.
(The node's text content is not part of the attribute model.) -/
def Text.element (t : Text) : Element :=
  let style := "fill:" ++ t.color ++ ";text-anchor:" ++ t.anchor ++
    ";font-size: " ++ toString t.size ++ "pt;font-weight:" ++ t.font_weight
  let style := match t.font_family with
    | some f => style ++ ";font-family:" ++ f
    | none => style
  let e : Element := ⟨"text",
    [("x", toString t.top_left.x), ("y", toString t.top_left.y), ("style", style)]⟩
  if t.angle ≠ 0 then
    e.set "transform" ("rotate(" ++ toString t.angle ++ "," ++
      toString t.top_left.x ++ "," ++ toString t.top_left.y ++ ")")
  else e

/-! ## Concrete scenario instances -/

/-- The path of end-to-end scenario 3:
`Path(Point(0,0), vector(10,10), vector(-10,0))`. -/
def path1 : Path := Path.init ⟨0, 0⟩ [vector 10 10, vector (-10) 0] []

/-- The group of end-to-end scenario 4:
`GroupedDrawable().rotate(90).move_to(Point(5,5))` (default opacity 100 and
default rotation origin `Point(0,0)`). -/
def g6 : GroupedDrawable ℚ :=
  ((GroupedDrawable.init ℚ 100).rotate 90 ⟨0, 0⟩).move_to ⟨5, 5⟩

/-- A concrete rotated text: anchored at (1,2) with `rotate(30)` applied
(the constructor leaves the angle at 0, as `Text.__init__` does). -/
def t0 : Text :=
  Text.rotate ⟨"label", ⟨1, 2⟩, "black", "start", 8, "normal", none, [], 0⟩ 30

/-- The Arc output format as the code actually produces it: the two radii are
separated by a space (not a comma); every later field is preceded by a comma
and a space, including both endpoint coordinates; radii, rotation and
endpoint carry six decimal places and the two flags print as integers. -/
def arcSpecAmended (x y xrot : ℚ) (large_arc sweep : ℤ) (endx endy : ℚ) : String :=
  "a " ++ fmtF x ++ " " ++ fmtF y ++ ", " ++ fmtF xrot ++ ", " ++
    toString large_arc ++ ", " ++ toString sweep ++ ", " ++
    fmtF endx ++ ", " ++ fmtF endy

/-! ## Claims -/

/-- C1, counterexample: the `d` attribute of scenario 3's path is not the
claimed string "M 0,0  l 10,10  l -10,0  Z" — the code emits only one space
after "M 0,0", because `'M %s '` contributes a single trailing space and the
first joined segment follows it directly. -/
theorem C1_counterexample :
    (path1.element).get "d" ≠ some "M 0,0  l 10,10  l -10,0  Z" := by
  decide

/-- C1 (amended): for the path `Path(Point(0,0), vector(10,10), vector(-10,0))`,
the `element()` result's `d` attribute is exactly
"M 0,0 l 10,10  l -10,0  Z": one space after "M 0,0", two spaces between
consecutive segments and before the final "Z" (each segment specification
carries its own trailing space and the join inserts another). -/
theorem C1_path_element_d :
    (path1.element).get "d" = some "M 0,0 l 10,10  l -10,0  Z" := by
  decide

/-- C2, counterexample: `Arc(1, 2, 0, 0, 1, 3, 4).specification()` is not of
the claimed shape "a rx,ry, xrot, large_arc, sweep, endx,endy" — at this
input that shape reads "a 1.000000,2.000000, 0.000000, 0, 1, 3.000000,4.000000",
while the code separates the radii with a space and the endpoint pair with a
comma and a space. -/
theorem C2_counterexample :
    PathSegment.specification (arc 1 2 0 0 1 3 4) ≠
      "a 1.000000,2.000000, 0.000000, 0, 1, 3.000000,4.000000" := by
  decide

/-- C2 (amended): for every Arc(x, y, xrot, large_arc, sweep, endx, endy),
`specification()` returns "a rx ry, xrot, large_arc, sweep, endx, endy" —
the two radii separated by a space and every later field (including the
second endpoint coordinate) preceded by a comma and a space — with radii,
rotation and endpoint formatted as floating point (six decimals) and the
two flags formatted as integers. -/
theorem C2_arc_specification (x y xrot : ℚ) (large_arc sweep : ℤ) (endx endy : ℚ) :
    PathSegment.specification (arc x y xrot large_arc sweep endx endy) =
      arcSpecAmended x y xrot large_arc sweep endx endy := rfl

/-- C3: for every angle θ, origin o and point p, `Rotation(θ, o).transform(p)`
is the rotation of p about the coordinate-system origin by -θ degrees,
`Point(cos(-θ)·p.x + sin(-θ)·p.y, cos(-θ)·p.y - sin(-θ)·p.x)` (angles
converted to radians as `math.radians` does); the result is identical for
any two origins; and `text()` does embed the origin's coordinates in the
descriptor. -/
theorem C3_rotation_ignores_origin :
    (∀ (θ : ℝ) (o p : Point ℝ),
      Transform.transform (.rotation θ o) p =
        ⟨Real.cos (radians (-θ)) * p.x + Real.sin (radians (-θ)) * p.y,
         Real.cos (radians (-θ)) * p.y - Real.sin (radians (-θ)) * p.x⟩) ∧
    (∀ (θ : ℝ) (o1 o2 p : Point ℝ),
      Transform.transform (.rotation θ o1) p = Transform.transform (.rotation θ o2) p) ∧
    (∀ (θ : ℚ) (o : Point ℚ),
      Transform.text (.rotation θ o) =
        "rotate(" ++ fmtF θ ++ "," ++ fmtF o.x ++ "," ++ fmtF o.y ++ ")") :=
  ⟨fun _ _ _ => rfl, fun _ _ _ _ => rfl, fun _ _ => rfl⟩

/-- C4: for every GroupedDrawable g and point p, `location_of(p)` equals the
left-to-right fold of g's transformation list over p (the first-appended
transform applied first).  The argument point is untouched: the embedding is
purely functional, mirroring the source's `copy(point)`. -/
theorem C4_location_of_is_foldl (g : GroupedDrawable ℝ) (p : Point ℝ) :
    g.location_of p =
      g.transformations.foldl (fun q t => t.transform q) p := by
  suffices h : ∀ (l : List (Transform ℝ)) (q : Point ℝ),
      applyTransforms l q = l.foldl (fun q t => t.transform q) q from
    h g.transformations p
  intro l
  induction l with
  | nil => intro q; rfl
  | cons t ts ih =>
      intro q
      rw [show applyTransforms (t :: ts) q = applyTransforms ts (t.transform q) from rfl,
        ih (t.transform q)]
      rfl

/-- C5: for every GroupedDrawable, `container()` returns a "g" node whose
`transform` attribute is present exactly when the transformation list is
non-empty (and then equals the space-joined `text()` of all transforms in
list order, i.e. `transformation()`), and whose `opacity` attribute is
present exactly when the opacity differs from 100 (and then equals its
decimal rendering); with opacity 100 and no transformations both `if`s
select `none`, so neither attribute is set. -/
theorem C5_container_attributes (g : GroupedDrawable ℚ) :
    (g.container).name = "g" ∧
    (g.container).get "transform" =
      (if g.transformations = [] then none else some g.transformation) ∧
    (g.container).get "opacity" =
      (if g.opacity = 100 then none else some (toString g.opacity)) := by
  rcases g with ⟨ts, op⟩
  cases ts <;> by_cases hop : op = 100 <;>
    simp [GroupedDrawable.container, GroupedDrawable.transformation,
      Element.get, Element.set, getAttr, setAttr, hop]

/-- C5, witness: evaluated at the group with one rotation and opacity 50,
the `transform` attribute is the rotation's text and the `opacity`
attribute is "50". -/
theorem C5_witness :
    (((GroupedDrawable.init ℚ 50).rotate 90 ⟨0, 0⟩).container).get "transform" =
        some "rotate(90.000000,0.000000,0.000000)" ∧
      (((GroupedDrawable.init ℚ 50).rotate 90 ⟨0, 0⟩).container).get "opacity" =
        some "50" := by
  have h := C5_container_attributes ((GroupedDrawable.init ℚ 50).rotate 90 ⟨0, 0⟩)
  exact ⟨h.2.1.trans (by decide), h.2.2.trans (by decide)⟩

/-- C6: the group `GroupedDrawable().rotate(90).move_to(Point(5,5))` has
container `transform` attribute exactly
"rotate(90.000000,0.000000,0.000000) translate(5.000000,5.000000)": the
descriptors appear in call order, rotation first. -/
theorem C6_group_transform_attribute :
    (g6.container).get "transform" =
      some "rotate(90.000000,0.000000,0.000000) translate(5.000000,5.000000)" := by
  decide

/-- C7: for every Rectangle and coordinates x, y, after `set_center(x, y)`
the centroid `center()` is exactly `Point(x, y)`, by exact rational
arithmetic (`x - w/2 + w/2 = x`). -/
theorem C7_set_center_roundtrip (r : Rectangle) (x y : ℚ) :
    (r.set_center x y).center = ⟨x, y⟩ := by
  show (⟨(x - (1/2) * r.width) + r.width * (1/2),
         (y - (1/2) * r.height) + r.height * (1/2)⟩ : Point ℚ) = ⟨x, y⟩
  simp only [Point.mk.injEq]
  constructor <;> ring

/-- C8: every freshly constructed Path has `closed = true` — the constructor
sets it unconditionally and exposes no parameter for it — so for every start
point, segment list and attribute mapping the emitted `d` attribute ends in
" Z". -/
theorem C8_path_closed_after_init (start : Point ℚ) (segments : List PathSegment)
    (attributes : List (String × String)) :
    (Path.init start segments attributes).closed = true ∧
    ∃ s : String,
      ((Path.init start segments attributes).element).get "d" = some (s ++ " Z") := by
  refine ⟨rfl, "M " ++ start.format ++ " " ++
    String.intercalate " " (segments.map PathSegment.specification), ?_⟩
  unfold Path.element Path.init
  cases hw : getAttr attributes "width" with
  | none =>
      simp only [hw, Element.get, Element.set]
      rw [getAttr_setAttr_same]
      rfl
  | some w =>
      simp only [hw, Element.get, Element.set]
      rw [getAttr_setAttr_of_ne _ _ _ _ (by decide), getAttr_setAttr_same]
      rfl

/-- C9: for every Line and point, `move_to` and `move_by` leave the stored
displacement vector unchanged, the difference `end() - top_left` is
preserved (both equal the vector), and every other field — color,
stroke width, linecap, dash array, extra attributes — is untouched. -/
theorem C9_line_move_preserves_vector (l : Line) (p : Point ℚ) :
    (l.move_to p).vector = l.vector ∧ (l.move_by p).vector = l.vector ∧
    (l.move_to p).endPoint - (l.move_to p).top_left = l.endPoint - l.top_left ∧
    (l.move_by p).endPoint - (l.move_by p).top_left = l.endPoint - l.top_left ∧
    (l.move_to p).color = l.color ∧ (l.move_by p).color = l.color ∧
    (l.move_to p).stroke_width = l.stroke_width ∧
    (l.move_by p).stroke_width = l.stroke_width ∧
    (l.move_to p).linecap = l.linecap ∧ (l.move_by p).linecap = l.linecap ∧
    (l.move_to p).stroke_dasharray = l.stroke_dasharray ∧
    (l.move_by p).stroke_dasharray = l.stroke_dasharray ∧
    (l.move_to p).attributes = l.attributes ∧
    (l.move_by p).attributes = l.attributes := by
  have hsub : ∀ m : Line, m.endPoint - m.top_left = m.vector := by
    intro m
    show (⟨m.top_left.x + m.vector.x - m.top_left.x,
           m.top_left.y + m.vector.y - m.top_left.y⟩ : Point ℚ) = m.vector
    rw [show m.vector = ⟨m.vector.x, m.vector.y⟩ from rfl]
    simp only [Point.mk.injEq]
    constructor <;> ring
  exact ⟨rfl, rfl, (hsub _).trans (hsub l).symm, (hsub _).trans (hsub l).symm,
    rfl, rfl, rfl, rfl, rfl, rfl, rfl, rfl, rfl, rfl⟩

/-- C10: for every Text, when the stored angle is non-zero `element()` sets
`transform` to "rotate(angle,x,y)" with x, y the text's own anchor
coordinates, all three rendered as integers; when the angle is zero no
`transform` attribute is present. -/
theorem C10_text_rotation_attribute (t : Text) :
    (t.angle ≠ 0 → (t.element).get "transform" =
      some ("rotate(" ++ toString t.angle ++ "," ++ toString t.top_left.x ++ "," ++
        toString t.top_left.y ++ ")")) ∧
    (t.angle = 0 → (t.element).get "transform" = none) := by
  constructor
  · intro h
    simp [Text.element, Element.get, Element.set, getAttr, setAttr, h]
  · intro h
    simp [Text.element, Element.get, Element.set, getAttr, setAttr, h]

/-- C10, witness: the text anchored at (1,2) rotated by 30 carries
`transform = "rotate(30,1,2)"`. -/
theorem C10_witness :
    (t0.element).get "transform" = some "rotate(30,1,2)" :=
  ((C10_text_rotation_attribute t0).1 (by decide)).trans (by decide)

end Svg
